import Mathlib

set_option maxHeartbeats 1000000
set_option maxRecDepth 8000

/-!
Shallow embedding of the telemetry ingestion and state engine of
src/main.py (vehicle tracking dashboard).  Configuration constants come
from lines 34 to 46, the line parser from the tick (lines 665 to 676),
the motion estimator from lines 679 to 695, the alert evaluation from
lines 718 to 727, the CSV flush discipline from lines 802 to 814 and
the map refresh gate from lines 706 and 741 to 742.  Times and
coordinates are modelled as real numbers; the parser works on lists of
characters with rational numeric values.  UI labels, the serial port
handling and the simulator are outside the modelled state.
-/

/- ===== configuration constants (src/main.py lines 34 to 45) ===== -/

noncomputable def START_LAT : ℝ := -19.92

noncomputable def START_LON : ℝ := -43.94

noncomputable def STOP_ALERT_SECONDS : ℝ := 30

noncomputable def GEOFENCE_CENTER : ℝ × ℝ := (-19.92, -43.94)

noncomputable def GEOFENCE_RADIUS_M : ℝ := 2000

def ROUTE_MAX_POINTS : ℕ := 500

def SPEED_HISTORY_MAX : ℕ := 600

noncomputable def MAP_REFRESH_MIN_S : ℝ := 1.0

noncomputable def MAP_MIN_MOVE_M : ℝ := 3.0

noncomputable def CSV_FLUSH_INTERVAL_S : ℝ := 5.0

def CSV_BUFFER_MAX : ℕ := 100

/- ===== frame parser (src/main.py lines 665 to 676) =====
The tick splits the raw line on commas, splits each field on colons and
feeds the pieces to float.  Numeric literals are modelled as optional
sign, digits and at most one decimal point, with rational value. -/

def natOfDigits (cs : List Char) : ℕ :=
  cs.foldl (fun n c => 10 * n + (c.toNat - 48)) 0

/-- Python str.split splitting on a single character: every occurrence
separates, empty pieces are kept, the empty string yields one empty piece. -/
def pySplit (sep : Char) : List Char → List (List Char)
  | [] => [[]]
  | c :: cs =>
    if c = sep then [] :: pySplit sep cs
    else
      match pySplit sep cs with
      | [] => [[c]]
      | p :: ps => (c :: p) :: ps

/-- Python substring membership test, pat in s. -/
def containsSub (pat : List Char) : List Char → Bool
  | [] => pat.isEmpty
  | c :: cs => pat.isPrefixOf (c :: cs) || containsSub pat cs

/-- Value of an unsigned decimal literal: digits with at most one point,
at least one digit overall; anything else fails like Python float. -/
def parseUnsigned (s : List Char) : Option ℚ :=
  match pySplit '.' s with
  | [ip] =>
      if ip ≠ [] ∧ ip.all Char.isDigit then some (natOfDigits ip) else none
  | [ip, fp] =>
      if (ip ≠ [] ∨ fp ≠ []) ∧ ip.all Char.isDigit ∧ fp.all Char.isDigit then
        some ((natOfDigits ip : ℚ) + (natOfDigits fp : ℚ) / (10 : ℚ) ^ fp.length)
      else none
  | _ => none

/-- Python float applied to a plain decimal literal, with optional sign. -/
def pyFloat? (s : List Char) : Option ℚ :=
  match s with
  | '-' :: rest => (parseUnsigned rest).map (fun q => -q)
  | '+' :: rest => parseUnsigned rest
  | _ => parseUnsigned s

/-- One decoded telemetry sample: latitude, longitude, optional speed. -/
structure Reading where
  lat : ℚ
  lon : ℚ
  spd : Option ℚ
  deriving DecidableEq, Repr

def latTag : List Char := "LAT:".toList

def lonTag : List Char := "LON:".toList

def spdTag : List Char := "SPD:".toList

/-- field.split(colon)[1] fed to float: fails on a missing piece or a
non numeric value, exactly where Python raises inside the try block. -/
def fieldVal (field : List Char) : Option ℚ :=
  match (pySplit ':' field).get? 1 with
  | some v => pyFloat? v
  | none => none

/-- The parsing done inline in MainWindow.tick (lines 665 to 676) combined
with the acceptance guard of line 679.  The line must start with LAT: and
contain LON:.  The local variables lat, lon, spd start as None; a raised
exception is caught and leaves the values assigned so far.  The reading is
accepted only when both lat and lon were assigned, so a failure in the
latitude or the longitude field rejects the line, while a failure in the
optional SPD field only leaves spd as None. -/
def parseLinha (linha : List Char) : Option Reading :=
  if latTag.isPrefixOf linha && containsSub lonTag linha then
    match ((pySplit ',' linha).get? 0).bind fieldVal,
        ((pySplit ',' linha).get? 1).bind fieldVal with
    | some la, some lo =>
        some { lat := la
               lon := lo
               spd :=
                 match (pySplit ',' linha).get? 2 with
                 | some f2 => if containsSub spdTag f2 then fieldVal f2 else none
                 | none => none }
    | _, _ => none
  else none

/- ===== geometry (src/main.py lines 91 to 102) ===== -/

noncomputable def radians (x : ℝ) : ℝ := x * Real.pi / 180

/-- math.atan2 on the reals, by quadrant. -/
noncomputable def atan2 (y x : ℝ) : ℝ :=
  if 0 < x then Real.arctan (y / x)
  else if x = 0 ∧ 0 < y then Real.pi / 2
  else if x = 0 ∧ y < 0 then -(Real.pi / 2)
  else if x < 0 ∧ 0 ≤ y then Real.arctan (y / x) + Real.pi
  else if x < 0 then Real.arctan (y / x) - Real.pi
  else 0

/-- haversine_m of src/main.py lines 91 to 99, Earth radius 6371000 m. -/
noncomputable def haversine_m (lat1 lon1 lat2 lon2 : ℝ) : ℝ :=
  let R : ℝ := 6371000.0
  let phi1 := radians lat1
  let phi2 := radians lat2
  let dphi := radians (lat2 - lat1)
  let dl := radians (lon2 - lon1)
  let a := Real.sin (dphi / 2) ^ 2 +
    Real.cos phi1 * Real.cos phi2 * Real.sin (dl / 2) ^ 2
  let c := 2 * atan2 (Real.sqrt a) (Real.sqrt (1 - a))
  R * c

/-- dentro_da_geofence of src/main.py lines 101 to 102 with its default
center and radius. -/
noncomputable def dentro_da_geofence (lat lon : ℝ) : Prop :=
  haversine_m lat lon GEOFENCE_CENTER.1 GEOFENCE_CENTER.2 ≤ GEOFENCE_RADIUS_M

/- ===== alert evaluation (src/main.py lines 718 to 727) ===== -/

/-- The two alert strings produced by the tick; the stopped alert carries
the truncated number of seconds. -/
inductive Alert where
  | parado (secs : ℤ)
  | fora
  deriving DecidableEq

open Classical in
/-- The alert list built on every tick: the stopped alert when more than
STOP_ALERT_SECONDS passed since the last movement, then the geofence alert
when the last known position lies outside the safe area. -/
noncomputable def evalAlerts (now lmt : ℝ) (lastPoint : Option (ℝ × ℝ × ℝ)) :
    List Alert :=
  (if now - lmt > STOP_ALERT_SECONDS then [Alert.parado ⌊now - lmt⌋] else []) ++
  (match lastPoint with
   | some p => if ¬ dentro_da_geofence p.1 p.2.1 then [Alert.fora] else []
   | none => [])

/- ===== engine state (src/main.py MainWindow state fields) ===== -/

/-- One buffered CSV record: (lat, lon, t, spd) as appended at line 702. -/
structure CsvRec where
  lat : ℝ
  lon : ℝ
  t : ℝ
  spd : Option ℝ

/-- The engine owned state touched by the tick; UI widgets and the serial
connection fields are left out. -/
@[ext]
structure EngineState where
  last_point : Option (ℝ × ℝ × ℝ)
  last_movement_time : ℝ
  route : List (ℝ × ℝ)
  speed_history : List (ℝ × ℝ)
  last_map_update : ℝ
  last_map_pos : Option (ℝ × ℝ)
  csv_buffer : List CsvRec
  csv_last_flush : ℝ
  save_route : Bool
  follow_map : Bool
  t0 : ℝ

/-- Appending to a collections.deque with maxlen cap: the new element goes
to the right and the oldest elements fall off the left. -/
def pushBounded {α : Type} (cap : ℕ) (x : α) (l : List α) : List α :=
  if (l ++ [x]).length ≤ cap then l ++ [x]
  else (l ++ [x]).drop ((l ++ [x]).length - cap)

/-- Derived speed of src/main.py lines 682 to 684: haversine distance over
the elapsed time floored at 1e-6, times 3.6. -/
noncomputable def est_kmh (lat0 lon0 lat lon t0 now : ℝ) : ℝ :=
  haversine_m lat0 lon0 lat lon / max (1 / 1000000) (now - t0) * 3.6

/-- MainWindow._flush_csv_if_needed (lines 802 to 814): nothing happens on
an empty buffer; on an elapsed interval or a full buffer every record is
handed to salvar_ponto_csv, whose own try and except swallows write
failures, and the finally block clears the buffer and resets the timer
whatever happened.  The oracle ok tells which records the file write
accepts; the third component lists the records actually written. -/
noncomputable def flushStep (ok : CsvRec → Bool) (buf : List CsvRec)
    (lastFlush now : ℝ) : List CsvRec × ℝ × List CsvRec :=
  match buf with
  | [] => ([], lastFlush, [])
  | b :: bs =>
    if now - lastFlush ≥ CSV_FLUSH_INTERVAL_S ∨ (b :: bs).length ≥ CSV_BUFFER_MAX then
      ([], now, (b :: bs).filter ok)
    else (b :: bs, lastFlush, [])

/-- What one tick produces besides the next state: the records written to
the CSV file, the map update emitted, and the alert list when the alert
step was reached (none when the tick aborted before it). -/
structure TickOut where
  st : EngineState
  written : List CsvRec
  mapEmit : Option (ℝ × ℝ)
  alerts : Option (List Alert)

/-- One tick input: the line taken from the queue or the simulator, if
any, and the wall clock time read at line 649. -/
structure TickInput where
  linha : Option (List Char)
  now : ℝ

/-- Accepted reading with a previous sample (src/main.py lines 680 to 736).
The movement time advances only when the distance exceeds 1.5 m.  After
the route append, the CSV buffering and the flush check, line 706 tests
follow_map and the map time gate and then calls self._moved_enough, a
method that does not exist anywhere in the class: the AttributeError is
caught by the outer handler of tick, so the speed chart and the alert
steps are skipped on exactly those ticks and no map update is emitted. -/
noncomputable def tickAcceptPrev (ok : CsvRec → Bool) (s : EngineState)
    (now : ℝ) (r : Reading) (prev : ℝ × ℝ × ℝ) : TickOut :=
  let lat : ℝ := (r.lat : ℝ)
  let lon : ℝ := (r.lon : ℝ)
  let dist := haversine_m prev.1 prev.2.1 lat lon
  let spd : ℝ :=
    match r.spd with
    | some v => (v : ℝ)
    | none => est_kmh prev.1 prev.2.1 lat lon prev.2.2 now
  let lmt := if dist > 1.5 then now else s.last_movement_time
  let route2 := pushBounded ROUTE_MAX_POINTS (lat, lon) s.route
  let buf1 := if s.save_route then s.csv_buffer ++ [⟨lat, lon, now, some spd⟩]
              else s.csv_buffer
  let fr := flushStep ok buf1 s.csv_last_flush now
  { st := { s with
      last_point := some (lat, lon, now)
      last_movement_time := lmt
      route := route2
      csv_buffer := fr.1
      csv_last_flush := fr.2.1
      speed_history :=
        if s.follow_map = true ∧ now - s.last_map_update ≥ MAP_REFRESH_MIN_S then
          s.speed_history
        else pushBounded SPEED_HISTORY_MAX (now - s.t0, spd) s.speed_history }
    written := fr.2.2
    mapEmit := none
    alerts :=
      if s.follow_map = true ∧ now - s.last_map_update ≥ MAP_REFRESH_MIN_S then none
      else some (evalAlerts now lmt (some (lat, lon, now))) }

/-- Accepted reading with no previous sample (first fix, lines 691 to 693):
the movement time is set to now, the speed stays as parsed. -/
noncomputable def tickAcceptFirst (ok : CsvRec → Bool) (s : EngineState)
    (now : ℝ) (r : Reading) : TickOut :=
  let lat : ℝ := (r.lat : ℝ)
  let lon : ℝ := (r.lon : ℝ)
  let spdOpt : Option ℝ := r.spd.map (fun v => (v : ℝ))
  let route2 := pushBounded ROUTE_MAX_POINTS (lat, lon) s.route
  let buf1 := if s.save_route then s.csv_buffer ++ [⟨lat, lon, now, spdOpt⟩]
              else s.csv_buffer
  let fr := flushStep ok buf1 s.csv_last_flush now
  { st := { s with
      last_point := some (lat, lon, now)
      last_movement_time := now
      route := route2
      csv_buffer := fr.1
      csv_last_flush := fr.2.1
      speed_history :=
        if s.follow_map = true ∧ now - s.last_map_update ≥ MAP_REFRESH_MIN_S then
          s.speed_history
        else
          match spdOpt with
          | some v => pushBounded SPEED_HISTORY_MAX (now - s.t0, v) s.speed_history
          | none => s.speed_history }
    written := fr.2.2
    mapEmit := none
    alerts :=
      if s.follow_map = true ∧ now - s.last_map_update ≥ MAP_REFRESH_MIN_S then none
      else some (evalAlerts now now (some (lat, lon, now))) }

/-- Dispatch of an accepted reading on the presence of a previous sample. -/
noncomputable def tickAccept (ok : CsvRec → Bool) (s : EngineState)
    (now : ℝ) (r : Reading) : TickOut :=
  match s.last_point with
  | some prev => tickAcceptPrev ok s now r prev
  | none => tickAcceptFirst ok s now r

/-- MainWindow.tick (lines 640 to 739) on the modelled state: parse the
line, if any; a rejected or absent line leaves the engine state unchanged
and still evaluates the alerts; an accepted reading runs the motion
estimator, the buffers, the flush check and the map gate. -/
noncomputable def tickStep (ok : CsvRec → Bool) (s : EngineState)
    (inp : TickInput) : TickOut :=
  match inp.linha.bind parseLinha with
  | none =>
      { st := s, written := [], mapEmit := none,
        alerts := some (evalAlerts inp.now s.last_movement_time s.last_point) }
  | some r => tickAccept ok s inp.now r

/-- A sequence of ticks, keeping only the state. -/
noncomputable def runTicks (ok : CsvRec → Bool) :
    EngineState → List TickInput → EngineState
  | s, [] => s
  | s, i :: is => runTicks ok (tickStep ok s i).st is

/-- Inverse of pySplit: rejoin the pieces with the separator. -/
def joinSep (sep : Char) : List (List Char) → List Char
  | [] => []
  | p :: ps =>
    match ps with
    | [] => p
    | _ :: _ => p ++ sep :: joinSep sep ps

/- ===== concrete sample values used by the witnesses ===== -/

noncomputable def recA : CsvRec := { lat := 1, lon := 2, t := 3, spd := none }

noncomputable def baseState : EngineState :=
  { last_point := none
    last_movement_time := 0
    route := []
    speed_history := []
    last_map_update := 0
    last_map_pos := none
    csv_buffer := []
    csv_last_flush := 0
    save_route := false
    follow_map := false
    t0 := 0 }

/-- A state about to miss a due CSV flush on a tick with no reading. -/
noncomputable def c1State : EngineState :=
  { baseState with csv_buffer := [recA], save_route := true, follow_map := true }

/-- A state in follow map mode with the map time gate long elapsed. -/
noncomputable def c4State : EngineState :=
  { baseState with last_point := some (0, 0, 0), follow_map := true }

/-- A state with a previous sample at the origin and follow map off. -/
noncomputable def c8State : EngineState :=
  { baseState with last_point := some (0, 0, 0) }

/- ===== lemmas about the splitting helpers ===== -/

theorem pySplit_ne_nil (sep : Char) (s : List Char) : pySplit sep s ≠ [] := by
  induction s with
  | nil => simp [pySplit]
  | cons c cs ih =>
    simp only [pySplit]
    split
    · simp
    · cases h : pySplit sep cs with
      | nil => exact absurd h ih
      | cons p ps => simp [h]

theorem pySplit_not_mem (sep : Char) (s : List Char) (h : sep ∉ s) :
    pySplit sep s = [s] := by
  induction s with
  | nil => rfl
  | cons c cs ih =>
    have hc : ¬ c = sep := by
      intro hh
      exact h (hh ▸ List.mem_cons_self c cs)
    have hcs : sep ∉ cs := fun hm => h (List.mem_cons_of_mem c hm)
    simp [pySplit, if_neg hc, ih hcs]

theorem pySplit_append (sep : Char) (x y : List Char) (h : sep ∉ x) :
    pySplit sep (x ++ sep :: y) = x :: pySplit sep y := by
  induction x with
  | nil => simp [pySplit]
  | cons c cs ih =>
    have hc : ¬ c = sep := by
      intro hh
      exact h (hh ▸ List.mem_cons_self c cs)
    have hcs : sep ∉ cs := fun hm => h (List.mem_cons_of_mem c hm)
    simp [pySplit, if_neg hc, ih hcs]

theorem joinSep_pySplit (sep : Char) (s : List Char) :
    joinSep sep (pySplit sep s) = s := by
  induction s with
  | nil => rfl
  | cons c cs ih =>
    by_cases hc : c = sep
    · subst hc
      have hsplit : pySplit c (c :: cs) = [] :: pySplit c cs := by simp [pySplit]
      rw [hsplit]
      cases h : pySplit c cs with
      | nil => exact absurd h (pySplit_ne_nil c cs)
      | cons p ps =>
        have hih : joinSep c (p :: ps) = cs := by rw [← h]; exact ih
        have hstep : joinSep c ([] :: p :: ps) = c :: joinSep c (p :: ps) := rfl
        rw [hstep, hih]
    · simp only [pySplit, if_neg hc]
      cases h : pySplit sep cs with
      | nil => exact absurd h (pySplit_ne_nil sep cs)
      | cons p ps =>
        have hih : joinSep sep (p :: ps) = cs := by rw [← h]; exact ih
        cases ps with
        | nil =>
          simp only [joinSep] at hih ⊢
          rw [hih]
        | cons q qs =>
          simp only [joinSep] at hih ⊢
          rw [List.cons_append, hih]

/- ===== lemmas about the numeric literals ===== -/

theorem parseUnsigned_chars (s : List Char) (v : ℚ) (h : parseUnsigned s = some v) :
    ∀ c ∈ s, c.isDigit = true ∨ c = '.' := by
  unfold parseUnsigned at h
  split at h
  · rename_i ip heq
    split at h
    · rename_i hcond
      have hs : s = ip := by
        have hj := joinSep_pySplit '.' s
        rw [heq] at hj
        simpa [joinSep] using hj.symm
      intro c hc
      rw [hs] at hc
      exact Or.inl (List.all_eq_true.mp hcond.2 c hc)
    · exact absurd h (by simp)
  · rename_i ip fp heq
    split at h
    · rename_i hcond
      have hs : s = ip ++ '.' :: fp := by
        have hj := joinSep_pySplit '.' s
        rw [heq] at hj
        simpa [joinSep] using hj.symm
      intro c hc
      rw [hs] at hc
      rcases List.mem_append.mp hc with hc1 | hc2
      · exact Or.inl (List.all_eq_true.mp hcond.2.1 c hc1)
      · rcases List.mem_cons.mp hc2 with rfl | hc3
        · exact Or.inr rfl
        · exact Or.inl (List.all_eq_true.mp hcond.2.2 c hc3)
    · exact absurd h (by simp)
  · exact absurd h (by simp)

theorem pyFloat?_chars (s : List Char) (v : ℚ) (h : pyFloat? s = some v) :
    ∀ c ∈ s, c.isDigit = true ∨ c = '.' ∨ c = '-' ∨ c = '+' := by
  unfold pyFloat? at h
  split at h
  · rename_i rest
    rcases Option.map_eq_some'.mp h with ⟨w, hw, _⟩
    intro c hc
    rcases List.mem_cons.mp hc with rfl | hc2
    · exact Or.inr (Or.inr (Or.inl rfl))
    · rcases parseUnsigned_chars rest w hw c hc2 with h1 | h1
      · exact Or.inl h1
      · exact Or.inr (Or.inl h1)
  · rename_i rest
    intro c hc
    rcases List.mem_cons.mp hc with rfl | hc2
    · exact Or.inr (Or.inr (Or.inr rfl))
    · rcases parseUnsigned_chars rest v h c hc2 with h1 | h1
      · exact Or.inl h1
      · exact Or.inr (Or.inl h1)
  · intro c hc
    rcases parseUnsigned_chars s v h c hc with h1 | h1
    · exact Or.inl h1
    · exact Or.inr (Or.inl h1)

theorem pyFloat?_no_sep (s : List Char) (v : ℚ) (h : pyFloat? s = some v) :
    ',' ∉ s ∧ ':' ∉ s := by
  constructor
  · intro hm
    rcases pyFloat?_chars s v h _ hm with h1 | h1 | h1 | h1 <;>
      exact absurd h1 (by decide)
  · intro hm
    rcases pyFloat?_chars s v h _ hm with h1 | h1 | h1 | h1 <;>
      exact absurd h1 (by decide)

/- ===== lemmas about prefixes and substrings ===== -/

theorem isPrefixOf_append_self (l t : List Char) : l.isPrefixOf (l ++ t) = true := by
  induction l with
  | nil => simp
  | cons c cs ih => simp [List.isPrefixOf_cons₂, ih]

theorem containsSub_of_pre (pat s : List Char) (h : pat.isPrefixOf s = true) :
    containsSub pat s = true := by
  cases s with
  | nil =>
    cases pat with
    | nil => rfl
    | cons a as => simp [List.isPrefixOf] at h
  | cons c cs => simp [containsSub, h]

theorem containsSub_cons (pat s : List Char) (c : Char)
    (h : containsSub pat s = true) : containsSub pat (c :: s) = true := by
  simp [containsSub, h]

theorem containsSub_middle (pat x y : List Char) :
    containsSub pat (x ++ (pat ++ y)) = true := by
  induction x with
  | nil => simpa using containsSub_of_pre pat (pat ++ y) (isPrefixOf_append_self pat y)
  | cons c cs ih => simpa using containsSub_cons pat (cs ++ (pat ++ y)) c ih

/- ===== parsing a well formed field ===== -/

theorem fieldVal_tagged (tag3 a : List Char) (v : ℚ)
    (htag : ':' ∉ tag3) (hv : pyFloat? a = some v) :
    fieldVal (tag3 ++ ':' :: a) = some v := by
  unfold fieldVal
  rw [pySplit_append ':' tag3 a htag,
    pySplit_not_mem ':' a (pyFloat?_no_sep a v hv).2]
  simp [hv]

/-- C7: every well formed line LAT:a,LON:b,SPD:c with numeric fields parses
to exactly that reading, and every line that does not start with LAT: or
does not contain LON: parses to no reading. -/
theorem parse_valid_and_reject :
    (∀ a b c va vb vc, pyFloat? a = some va → pyFloat? b = some vb →
        pyFloat? c = some vc →
        parseLinha (latTag ++ (a ++ (',' :: (lonTag ++ (b ++ (',' :: (spdTag ++ c))))))) =
          some { lat := va, lon := vb, spd := some vc }) ∧
    (∀ linha, latTag.isPrefixOf linha = false ∨ containsSub lonTag linha = false →
        parseLinha linha = none) := by
  constructor
  · intro a b c va vb vc ha hb hc
    have hnca : ',' ∉ a := (pyFloat?_no_sep a va ha).1
    have hncb : ',' ∉ b := (pyFloat?_no_sep b vb hb).1
    have hncc : ',' ∉ c := (pyFloat?_no_sep c vc hc).1
    have hmemA : ',' ∉ latTag ++ a := by
      intro hm
      rcases List.mem_append.mp hm with hx | hx
      · exact absurd hx (by decide)
      · exact hnca hx
    have hmemB : ',' ∉ lonTag ++ b := by
      intro hm
      rcases List.mem_append.mp hm with hx | hx
      · exact absurd hx (by decide)
      · exact hncb hx
    have hmemC : ',' ∉ spdTag ++ c := by
      intro hm
      rcases List.mem_append.mp hm with hx | hx
      · exact absurd hx (by decide)
      · exact hncc hx
    have hguard1 : latTag.isPrefixOf
        (latTag ++ (a ++ (',' :: (lonTag ++ (b ++ (',' :: (spdTag ++ c))))))) = true :=
      isPrefixOf_append_self _ _
    have hguard2 : containsSub lonTag
        (latTag ++ (a ++ (',' :: (lonTag ++ (b ++ (',' :: (spdTag ++ c))))))) = true := by
      have hmid := containsSub_middle lonTag (latTag ++ (a ++ [',']))
        (b ++ (',' :: (spdTag ++ c)))
      simpa [List.append_assoc] using hmid
    have hshape : latTag ++ (a ++ (',' :: (lonTag ++ (b ++ (',' :: (spdTag ++ c)))))) =
        (latTag ++ a) ++ ',' :: ((lonTag ++ b) ++ ',' :: (spdTag ++ c)) := by
      simp [List.append_assoc]
    have hparts : pySplit ','
        (latTag ++ (a ++ (',' :: (lonTag ++ (b ++ (',' :: (spdTag ++ c))))))) =
        (latTag ++ a) :: (lonTag ++ b) :: [spdTag ++ c] := by
      rw [hshape, pySplit_append ',' _ _ hmemA, pySplit_append ',' _ _ hmemB,
        pySplit_not_mem ',' _ hmemC]
    have hlatEq : latTag ++ a = ['L', 'A', 'T'] ++ ':' :: a := by
      have h0 : latTag = ['L', 'A', 'T'] ++ [':'] := by decide
      rw [h0]
      simp
    have hlonEq : lonTag ++ b = ['L', 'O', 'N'] ++ ':' :: b := by
      have h0 : lonTag = ['L', 'O', 'N'] ++ [':'] := by decide
      rw [h0]
      simp
    have hspdEq : spdTag ++ c = ['S', 'P', 'D'] ++ ':' :: c := by
      have h0 : spdTag = ['S', 'P', 'D'] ++ [':'] := by decide
      rw [h0]
      simp
    have hfa : fieldVal (latTag ++ a) = some va := by
      rw [hlatEq]
      exact fieldVal_tagged _ _ _ (by decide) ha
    have hfb : fieldVal (lonTag ++ b) = some vb := by
      rw [hlonEq]
      exact fieldVal_tagged _ _ _ (by decide) hb
    have hfc : fieldVal (spdTag ++ c) = some vc := by
      rw [hspdEq]
      exact fieldVal_tagged _ _ _ (by decide) hc
    have hsub : containsSub spdTag (spdTag ++ c) = true := by
      simpa using containsSub_middle spdTag [] c
    unfold parseLinha
    rw [hguard1, hguard2]
    simp only [Bool.and_self, if_true, hparts]
    simp [hfa, hfb, hfc, hsub]
  · intro linha h
    unfold parseLinha
    rcases h with h | h <;> simp [h]

/-- C7 witness at the concrete line LAT:12.5,LON:-3,SPD:0.25. -/
theorem parse_valid_and_reject_witness :
    parseLinha (latTag ++ ("12.5".toList ++ (',' :: (lonTag ++ ("-3".toList ++
        (',' :: (spdTag ++ "0.25".toList))))))) =
      some { lat := 25 / 2, lon := -3, spd := some (1 / 4) } := by
  have ha : pyFloat? ("12.5".toList) = some (25 / 2) := by
    show (some ((natOfDigits ['1', '2'] : ℚ) +
      (natOfDigits ['5'] : ℚ) / (10 : ℚ) ^ (1 : ℕ)) : Option ℚ) = some (25 / 2)
    rw [show natOfDigits ['1', '2'] = 12 from by decide,
      show natOfDigits ['5'] = 5 from by decide]
    norm_num
  have hb : pyFloat? ("-3".toList) = some (-3) := by
    show (Option.map (fun q => -q) (some ((natOfDigits ['3'] : ℚ))) : Option ℚ) =
      some (-3)
    rw [show natOfDigits ['3'] = 3 from by decide]
    norm_num
  have hc : pyFloat? ("0.25".toList) = some (1 / 4) := by
    show (some ((natOfDigits ['0'] : ℚ) +
      (natOfDigits ['2', '5'] : ℚ) / (10 : ℚ) ^ (2 : ℕ)) : Option ℚ) = some (1 / 4)
    rw [show natOfDigits ['0'] = 0 from by decide,
      show natOfDigits ['2', '5'] = 25 from by decide]
    norm_num
  exact parse_valid_and_reject.1 _ _ _ _ _ _ ha hb hc

/-- C10: on a line that starts with LAT: and contains LON: anywhere, the
longitude is the numeric value after the first colon of the second comma
separated field, whatever the tag of that field is; the line is accepted. -/
theorem lon_from_second_field (linha : List Char) (la lo : ℚ)
    (h1 : latTag.isPrefixOf linha = true) (h2 : containsSub lonTag linha = true)
    (hla : ((pySplit ',' linha).get? 0).bind fieldVal = some la)
    (hlo : ((pySplit ',' linha).get? 1).bind fieldVal = some lo) :
    ∃ sp, parseLinha linha = some { lat := la, lon := lo, spd := sp } := by
  unfold parseLinha
  rw [h1, h2]
  simp only [Bool.and_self, if_true]
  rw [hla, hlo]
  exact ⟨_, rfl⟩

/-- C10 witness: the line LAT:1,X:2,LON:3 is accepted and its longitude is
the value 2 of the second field, not the 3 after the LON: marker. -/
theorem lon_from_second_field_witness :
    ∃ sp, parseLinha ("LAT:1,X:2,LON:3".toList) =
      some { lat := 1, lon := 2, spd := sp } := by
  have hla : ((pySplit ',' ("LAT:1,X:2,LON:3".toList)).get? 0).bind fieldVal =
      some 1 := by
    show (some ((natOfDigits ['1'] : ℚ)) : Option ℚ) = some 1
    rw [show natOfDigits ['1'] = 1 from by decide]
    norm_num
  have hlo : ((pySplit ',' ("LAT:1,X:2,LON:3".toList)).get? 1).bind fieldVal =
      some 2 := by
    show (some ((natOfDigits ['2'] : ℚ)) : Option ℚ) = some 2
    rw [show natOfDigits ['2'] = 2 from by decide]
    norm_num
  exact lon_from_second_field _ 1 2 (by decide) (by decide) hla hlo

/-- C2 counterexample: in the line LAT:1,LON:2,SPD:abc the speed field is
not numeric, yet the line is not rejected: it is accepted with latitude 1,
longitude 2 and no speed, because the exception raised by float on the SPD
field is caught after lat and lon were already assigned. -/
theorem parse_speed_failure_accepted_cex :
    pyFloat? ("abc".toList) = none ∧
    parseLinha ("LAT:1,LON:2,SPD:abc".toList) =
      some { lat := 1, lon := 2, spd := none } := by
  constructor
  · decide
  · show (some (Reading.mk (natOfDigits ['1'] : ℚ) (natOfDigits ['2'] : ℚ) none) :
      Option Reading) = some { lat := 1, lon := 2, spd := none }
    rw [show natOfDigits ['1'] = 1 from by decide,
      show natOfDigits ['2'] = 2 from by decide]
    norm_num

/-- C2 amended: a parse failure in the latitude or the longitude field
rejects the whole line, a rejected line leaves the engine state untouched,
and an accepted reading takes its latitude and its longitude from their two
fields together, so the pair is applied atomically; only a failure in the
optional speed field is forgiven, dropping just the speed. -/
theorem parse_atomicity_amended :
    (∀ linha, ((pySplit ',' linha).get? 0).bind fieldVal = none ∨
        ((pySplit ',' linha).get? 1).bind fieldVal = none →
        parseLinha linha = none) ∧
    (∀ ok s inp, inp.linha.bind parseLinha = none → (tickStep ok s inp).st = s) ∧
    (∀ linha r, parseLinha linha = some r →
        ((pySplit ',' linha).get? 0).bind fieldVal = some r.lat ∧
        ((pySplit ',' linha).get? 1).bind fieldVal = some r.lon) := by
  refine ⟨?_, ?_, ?_⟩
  · intro linha h
    unfold parseLinha
    split
    · rcases h with h | h
      · rw [h]
      · cases hfst : ((pySplit ',' linha).get? 0).bind fieldVal with
        | none => rfl
        | some la => rw [h]
    · rfl
  · intro ok s inp h
    unfold tickStep
    rw [h]
  · intro linha r h
    unfold parseLinha at h
    split at h
    · split at h
      · rename_i la lo hla hlo
        cases h
        exact ⟨hla, hlo⟩
      · exact absurd h (by simp)
    · exact absurd h (by simp)

/-- C2 amended witness: a non numeric latitude field rejects the line. -/
theorem parse_atomicity_amended_witness :
    parseLinha ("LAT:x,LON:2".toList) = none :=
  parse_atomicity_amended.1 ("LAT:x,LON:2".toList) (Or.inl (by decide))

/- ===== geometry lemmas ===== -/

theorem radians_zero : radians 0 = 0 := by
  simp [radians]

theorem atan2_zero_one : atan2 0 1 = 0 := by
  unfold atan2
  rw [if_pos one_pos]
  simp [Real.arctan_zero]

theorem atan2_one_zero : atan2 1 0 = Real.pi / 2 := by
  unfold atan2
  rw [if_neg (lt_irrefl 0), if_pos ⟨rfl, one_pos⟩]

theorem haversine_self (lat lon : ℝ) : haversine_m lat lon lat lon = 0 := by
  simp [haversine_m, radians, sub_self, Real.sin_zero, Real.sqrt_zero,
    Real.sqrt_one, atan2_zero_one]

theorem haversine_pole (lat lon : ℝ) :
    haversine_m (lat + 180) lon lat lon = 6371000 * Real.pi := by
  have hd : radians (lat - (lat + 180)) = -Real.pi := by
    unfold radians
    ring
  have hsin : Real.sin (radians (lat - (lat + 180)) / 2) ^ 2 = 1 := by
    rw [hd, neg_div, Real.sin_neg, Real.sin_pi_div_two]
    norm_num
  simp only [haversine_m]
  rw [hsin, sub_self, radians_zero]
  norm_num [Real.sin_zero, Real.sqrt_one, Real.sqrt_zero, atan2_one_zero]
  ring

/- ===== C9: geofence alert ===== -/

/-- C9: the geofence alert fires exactly when the great circle distance of
the current position from the geofence center exceeds the radius of 2000 m;
the center itself never alerts, and any point at distance at least radius
plus one meter always alerts. -/
theorem geofence_alert_iff :
    (∀ now lmt la lo t, Alert.fora ∈ evalAlerts now lmt (some (la, lo, t)) ↔
        haversine_m la lo GEOFENCE_CENTER.1 GEOFENCE_CENTER.2 > GEOFENCE_RADIUS_M) ∧
    (∀ now lmt t, Alert.fora ∉ evalAlerts now lmt
        (some (GEOFENCE_CENTER.1, GEOFENCE_CENTER.2, t))) ∧
    (∀ now lmt la lo t,
        haversine_m la lo GEOFENCE_CENTER.1 GEOFENCE_CENTER.2 ≥ GEOFENCE_RADIUS_M + 1 →
        Alert.fora ∈ evalAlerts now lmt (some (la, lo, t))) := by
  have key : ∀ now lmt la lo t,
      Alert.fora ∈ evalAlerts now lmt (some (la, lo, t)) ↔
        haversine_m la lo GEOFENCE_CENTER.1 GEOFENCE_CENTER.2 > GEOFENCE_RADIUS_M := by
    intro now lmt la lo t
    classical
    show Alert.fora ∈
      (if now - lmt > STOP_ALERT_SECONDS then [Alert.parado ⌊now - lmt⌋] else []) ++
        (if ¬ dentro_da_geofence la lo then [Alert.fora] else []) ↔ _
    rw [List.mem_append]
    constructor
    · rintro (hmem | hmem)
      · split at hmem <;> simp at hmem
      · split at hmem
        · rename_i hgt
          exact not_le.mp hgt
        · simp at hmem
    · intro hgt
      refine Or.inr ?_
      have hnd : ¬ dentro_da_geofence la lo := not_le.mpr hgt
      rw [if_pos hnd]
      simp
  refine ⟨key, ?_, ?_⟩
  · intro now lmt t
    rw [key now lmt GEOFENCE_CENTER.1 GEOFENCE_CENTER.2 t, haversine_self]
    norm_num [GEOFENCE_RADIUS_M]
  · intro now lmt la lo t h
    rw [key now lmt la lo t]
    linarith

/-- C9 witness: the point 180 degrees of latitude away from the center is
far outside the geofence and does produce the alert. -/
theorem geofence_alert_iff_witness :
    Alert.fora ∈ evalAlerts 0 0 (some (160.08, -43.94, 0)) := by
  have hpole : haversine_m 160.08 (-43.94) GEOFENCE_CENTER.1 GEOFENCE_CENTER.2 =
      6371000 * Real.pi := by
    have h0 : (160.08 : ℝ) = -19.92 + 180 := by norm_num
    have h1 : GEOFENCE_CENTER.1 = (-19.92 : ℝ) := rfl
    have h2 : GEOFENCE_CENTER.2 = (-43.94 : ℝ) := rfl
    rw [h0, h1, h2]
    exact haversine_pole (-19.92) (-43.94)
  have hge : haversine_m 160.08 (-43.94) GEOFENCE_CENTER.1 GEOFENCE_CENTER.2 ≥
      GEOFENCE_RADIUS_M + 1 := by
    rw [hpole]
    have hpi := Real.pi_gt_three
    unfold GEOFENCE_RADIUS_M
    nlinarith
  exact geofence_alert_iff.2.2 0 0 160.08 (-43.94) 0 hge

/- ===== unfolding lemmas for the tick ===== -/

theorem tickStep_none (ok : CsvRec → Bool) (s : EngineState) (inp : TickInput)
    (h : inp.linha.bind parseLinha = none) :
    tickStep ok s inp =
      { st := s, written := [], mapEmit := none,
        alerts := some (evalAlerts inp.now s.last_movement_time s.last_point) } := by
  unfold tickStep
  rw [h]

theorem tickStep_some (ok : CsvRec → Bool) (s : EngineState) (inp : TickInput)
    (r : Reading) (h : inp.linha.bind parseLinha = some r) :
    tickStep ok s inp = tickAccept ok s inp.now r := by
  unfold tickStep
  rw [h]

theorem tickAccept_prev (ok : CsvRec → Bool) (s : EngineState) (now : ℝ)
    (r : Reading) (p : ℝ × ℝ × ℝ) (h : s.last_point = some p) :
    tickAccept ok s now r = tickAcceptPrev ok s now r p := by
  unfold tickAccept
  rw [h]

theorem tickAccept_first (ok : CsvRec → Bool) (s : EngineState) (now : ℝ)
    (r : Reading) (h : s.last_point = none) :
    tickAccept ok s now r = tickAcceptFirst ok s now r := by
  unfold tickAccept
  rw [h]

theorem tickAcceptPrev_lmt (ok : CsvRec → Bool) (s : EngineState) (now : ℝ)
    (r : Reading) (p : ℝ × ℝ × ℝ) :
    (tickAcceptPrev ok s now r p).st.last_movement_time =
      if haversine_m p.1 p.2.1 (r.lat : ℝ) (r.lon : ℝ) > 1.5 then now
      else s.last_movement_time := rfl

theorem tickAcceptFirst_lmt (ok : CsvRec → Bool) (s : EngineState) (now : ℝ)
    (r : Reading) :
    (tickAcceptFirst ok s now r).st.last_movement_time = now := rfl

theorem tickAcceptPrev_mapEmit (ok : CsvRec → Bool) (s : EngineState) (now : ℝ)
    (r : Reading) (p : ℝ × ℝ × ℝ) :
    (tickAcceptPrev ok s now r p).mapEmit = none := rfl

theorem tickAcceptFirst_mapEmit (ok : CsvRec → Bool) (s : EngineState) (now : ℝ)
    (r : Reading) :
    (tickAcceptFirst ok s now r).mapEmit = none := rfl

theorem tickAcceptPrev_route (ok : CsvRec → Bool) (s : EngineState) (now : ℝ)
    (r : Reading) (p : ℝ × ℝ × ℝ) :
    (tickAcceptPrev ok s now r p).st.route =
      pushBounded ROUTE_MAX_POINTS ((r.lat : ℝ), (r.lon : ℝ)) s.route := rfl

theorem tickAcceptFirst_route (ok : CsvRec → Bool) (s : EngineState) (now : ℝ)
    (r : Reading) :
    (tickAcceptFirst ok s now r).st.route =
      pushBounded ROUTE_MAX_POINTS ((r.lat : ℝ), (r.lon : ℝ)) s.route := rfl

theorem tickAcceptPrev_alerts_eq (ok : CsvRec → Bool) (s : EngineState) (now : ℝ)
    (r : Reading) (p : ℝ × ℝ × ℝ) :
    (tickAcceptPrev ok s now r p).alerts =
      if s.follow_map = true ∧ now - s.last_map_update ≥ MAP_REFRESH_MIN_S then none
      else some (evalAlerts now
        (if haversine_m p.1 p.2.1 (r.lat : ℝ) (r.lon : ℝ) > 1.5 then now
         else s.last_movement_time)
        (some ((r.lat : ℝ), (r.lon : ℝ), now))) := rfl

theorem tickAcceptFirst_alerts_eq (ok : CsvRec → Bool) (s : EngineState) (now : ℝ)
    (r : Reading) :
    (tickAcceptFirst ok s now r).alerts =
      if s.follow_map = true ∧ now - s.last_map_update ≥ MAP_REFRESH_MIN_S then none
      else some (evalAlerts now now (some ((r.lat : ℝ), (r.lon : ℝ), now))) := rfl

theorem tickAcceptPrev_abort (ok : CsvRec → Bool) (s : EngineState) (now : ℝ)
    (r : Reading) (p : ℝ × ℝ × ℝ)
    (h : s.follow_map = true ∧ now - s.last_map_update ≥ MAP_REFRESH_MIN_S) :
    (tickAcceptPrev ok s now r p).alerts = none := by
  rw [tickAcceptPrev_alerts_eq, if_pos h]

theorem tickAcceptFirst_abort (ok : CsvRec → Bool) (s : EngineState) (now : ℝ)
    (r : Reading)
    (h : s.follow_map = true ∧ now - s.last_map_update ≥ MAP_REFRESH_MIN_S) :
    (tickAcceptFirst ok s now r).alerts = none := by
  rw [tickAcceptFirst_alerts_eq, if_pos h]

theorem tickAcceptPrev_noabort_alerts (ok : CsvRec → Bool) (s : EngineState)
    (now : ℝ) (r : Reading) (p : ℝ × ℝ × ℝ)
    (h : ¬(s.follow_map = true ∧ now - s.last_map_update ≥ MAP_REFRESH_MIN_S)) :
    ∃ l, (tickAcceptPrev ok s now r p).alerts = some l := by
  rw [tickAcceptPrev_alerts_eq, if_neg h]
  exact ⟨_, rfl⟩

theorem tickAcceptFirst_noabort_alerts (ok : CsvRec → Bool) (s : EngineState)
    (now : ℝ) (r : Reading)
    (h : ¬(s.follow_map = true ∧ now - s.last_map_update ≥ MAP_REFRESH_MIN_S)) :
    ∃ l, (tickAcceptFirst ok s now r).alerts = some l := by
  rw [tickAcceptFirst_alerts_eq, if_neg h]
  exact ⟨_, rfl⟩

theorem tickAcceptPrev_speed_eq (ok : CsvRec → Bool) (s : EngineState) (now : ℝ)
    (r : Reading) (p : ℝ × ℝ × ℝ) :
    (tickAcceptPrev ok s now r p).st.speed_history =
      if s.follow_map = true ∧ now - s.last_map_update ≥ MAP_REFRESH_MIN_S then
        s.speed_history
      else pushBounded SPEED_HISTORY_MAX (now - s.t0,
        match r.spd with
        | some v => (v : ℝ)
        | none => est_kmh p.1 p.2.1 (r.lat : ℝ) (r.lon : ℝ) p.2.2 now)
        s.speed_history := rfl

theorem tickAcceptPrev_speed (ok : CsvRec → Bool) (s : EngineState) (now : ℝ)
    (r : Reading) (p : ℝ × ℝ × ℝ)
    (h : ¬(s.follow_map = true ∧ now - s.last_map_update ≥ MAP_REFRESH_MIN_S)) :
    (tickAcceptPrev ok s now r p).st.speed_history =
      pushBounded SPEED_HISTORY_MAX (now - s.t0,
        match r.spd with
        | some v => (v : ℝ)
        | none => est_kmh p.1 p.2.1 (r.lat : ℝ) (r.lon : ℝ) p.2.2 now)
        s.speed_history := by
  rw [tickAcceptPrev_speed_eq, if_neg h]

/- ===== unfolding lemmas for the flush ===== -/

theorem flushStep_cons_eq (ok : CsvRec → Bool) (b : CsvRec) (bs : List CsvRec)
    (lf now : ℝ) :
    flushStep ok (b :: bs) lf now =
      if now - lf ≥ CSV_FLUSH_INTERVAL_S ∨ (b :: bs).length ≥ CSV_BUFFER_MAX then
        ([], now, (b :: bs).filter ok)
      else (b :: bs, lf, []) := rfl

theorem flushStep_trigger (ok : CsvRec → Bool) (b : CsvRec) (bs : List CsvRec)
    (lf now : ℝ)
    (h : now - lf ≥ CSV_FLUSH_INTERVAL_S ∨ (b :: bs).length ≥ CSV_BUFFER_MAX) :
    flushStep ok (b :: bs) lf now = ([], now, (b :: bs).filter ok) := by
  rw [flushStep_cons_eq, if_pos h]

theorem flushStep_no_trigger (ok : CsvRec → Bool) (b : CsvRec) (bs : List CsvRec)
    (lf now : ℝ)
    (h : ¬(now - lf ≥ CSV_FLUSH_INTERVAL_S ∨ (b :: bs).length ≥ CSV_BUFFER_MAX)) :
    flushStep ok (b :: bs) lf now = (b :: bs, lf, []) := by
  rw [flushStep_cons_eq, if_neg h]

theorem flushStep_indep (ok1 ok2 : CsvRec → Bool) (buf : List CsvRec) (lf now : ℝ) :
    (flushStep ok1 buf lf now).1 = (flushStep ok2 buf lf now).1 ∧
    (flushStep ok1 buf lf now).2.1 = (flushStep ok2 buf lf now).2.1 := by
  cases buf with
  | nil => exact ⟨rfl, rfl⟩
  | cons b bs =>
    by_cases hc : now - lf ≥ CSV_FLUSH_INTERVAL_S ∨ (b :: bs).length ≥ CSV_BUFFER_MAX
    · rw [flushStep_trigger ok1 b bs lf now hc, flushStep_trigger ok2 b bs lf now hc]
      exact ⟨rfl, rfl⟩
    · rw [flushStep_no_trigger ok1 b bs lf now hc,
        flushStep_no_trigger ok2 b bs lf now hc]
      exact ⟨rfl, rfl⟩

theorem tickStep_ok_indep (ok1 ok2 : CsvRec → Bool) (s : EngineState)
    (inp : TickInput) :
    (tickStep ok1 s inp).st = (tickStep ok2 s inp).st ∧
    (tickStep ok1 s inp).alerts = (tickStep ok2 s inp).alerts := by
  cases hp : inp.linha.bind parseLinha with
  | none =>
    rw [tickStep_none ok1 s inp hp, tickStep_none ok2 s inp hp]
    exact ⟨rfl, rfl⟩
  | some r =>
    rw [tickStep_some ok1 s inp r hp, tickStep_some ok2 s inp r hp]
    cases hprev : s.last_point with
    | some p =>
      rw [tickAccept_prev ok1 s inp.now r p hprev,
        tickAccept_prev ok2 s inp.now r p hprev]
      constructor
      · apply EngineState.ext <;>
          first
          | rfl
          | exact (flushStep_indep ok1 ok2 _ _ _).1
          | exact (flushStep_indep ok1 ok2 _ _ _).2
      · rfl
    | none =>
      rw [tickAccept_first ok1 s inp.now r hprev,
        tickAccept_first ok2 s inp.now r hprev]
      constructor
      · apply EngineState.ext <;>
          first
          | rfl
          | exact (flushStep_indep ok1 ok2 _ _ _).1
          | exact (flushStep_indep ok1 ok2 _ _ _).2
      · rfl

/- ===== C1: what the tick really guarantees ===== -/

/-- C1 counterexample: on a tick with no line the CSV flush policy check is
not serviced at all, even with the flush long due and the buffer nonempty:
the buffered record stays unwritten in the buffer, because the flush check
sits inside the accepted reading branch of the tick. -/
theorem tick_skips_flush_without_reading_cex :
    ((100 : ℝ) - c1State.csv_last_flush ≥ CSV_FLUSH_INTERVAL_S) ∧
    c1State.csv_buffer ≠ [] ∧
    (tickStep (fun _ => true) c1State { linha := none, now := 100 }).written = [] ∧
    (tickStep (fun _ => true) c1State { linha := none, now := 100 }).st.csv_buffer =
      c1State.csv_buffer := by
  refine ⟨?_, ?_, ?_, ?_⟩
  · show (100 : ℝ) - 0 ≥ CSV_FLUSH_INTERVAL_S
    norm_num [CSV_FLUSH_INTERVAL_S]
  · show [recA] ≠ []
    simp
  · rw [tickStep_none (fun _ => true) c1State { linha := none, now := 100 } rfl]
  · rw [tickStep_none (fun _ => true) c1State { linha := none, now := 100 } rfl]

/-- C1 amended: alert evaluation runs on every tick with no accepted
reading, and on every accepted reading tick that does not meet the missing
map helper condition; the CSV flush policy check runs only on ticks where a
reading was accepted; a malformed line behaves exactly like an absent line;
and a CSV write failure changes only which records get written, never the
resulting engine state, the alert evaluation, or the following ticks. -/
theorem tick_best_effort_amended :
    (∀ (ok : CsvRec → Bool) s inp, inp.linha.bind parseLinha = none →
        (tickStep ok s inp).alerts =
          some (evalAlerts inp.now s.last_movement_time s.last_point) ∧
        (tickStep ok s inp).st = s ∧ (tickStep ok s inp).written = []) ∧
    (∀ (ok : CsvRec → Bool) s inp r, inp.linha.bind parseLinha = some r →
        ¬(s.follow_map = true ∧ inp.now - s.last_map_update ≥ MAP_REFRESH_MIN_S) →
        ∃ l, (tickStep ok s inp).alerts = some l) ∧
    (∀ (ok : CsvRec → Bool) s (now : ℝ) bad, parseLinha bad = none →
        tickStep ok s { linha := some bad, now := now } =
          tickStep ok s { linha := none, now := now }) ∧
    (∀ (ok1 ok2 : CsvRec → Bool) s inp,
        (tickStep ok1 s inp).st = (tickStep ok2 s inp).st ∧
        (tickStep ok1 s inp).alerts = (tickStep ok2 s inp).alerts) := by
  refine ⟨?_, ?_, ?_, tickStep_ok_indep⟩
  · intro ok s inp h
    rw [tickStep_none _ _ _ h]
    exact ⟨rfl, rfl, rfl⟩
  · intro ok s inp r hp hna
    rw [tickStep_some _ _ _ _ hp]
    cases hprev : s.last_point with
    | some p =>
      rw [tickAccept_prev _ _ _ _ _ hprev]
      exact tickAcceptPrev_noabort_alerts _ _ _ _ _ hna
    | none =>
      rw [tickAccept_first _ _ _ _ hprev]
      exact tickAcceptFirst_noabort_alerts _ _ _ _ hna
  · intro ok s now bad h
    have h1 : (TickInput.mk (some bad) now).linha.bind parseLinha = none := by
      simp [h]
    rw [tickStep_none ok s { linha := some bad, now := now } h1,
      tickStep_none ok s { linha := none, now := now } rfl]

/-- C1 amended witness: a concrete tick with no line still evaluates the
alerts and leaves the state unchanged, writing nothing. -/
theorem tick_best_effort_amended_witness :
    (tickStep (fun _ => true) baseState { linha := none, now := 5 }).alerts =
      some (evalAlerts 5 baseState.last_movement_time baseState.last_point) ∧
    (tickStep (fun _ => true) baseState { linha := none, now := 5 }).st = baseState ∧
    (tickStep (fun _ => true) baseState { linha := none, now := 5 }).written = [] :=
  tick_best_effort_amended.1 (fun _ => true) baseState { linha := none, now := 5 } rfl

/- ===== C3: the CSV flush discipline ===== -/

/-- C3 counterexample: with the flush due and every write failing, the
buffer is cleared anyway and nothing is written: the buffered record is
silently dropped instead of being retained for a later retry. -/
theorem csv_flush_drops_on_failure_cex :
    ((10 : ℝ) - 0 ≥ CSV_FLUSH_INTERVAL_S) ∧
    flushStep (fun _ => false) [recA] 0 10 = ([], 10, []) := by
  constructor
  · norm_num [CSV_FLUSH_INTERVAL_S]
  · rw [flushStep_trigger _ _ _ _ _ (Or.inl (by norm_num [CSV_FLUSH_INTERVAL_S]))]
    simp

/-- C3 amended: when a flush trigger holds, all buffered records are
attempted in buffered order and the buffer is cleared and the timer reset
regardless of write failures; on an all successful flush every record is
written in order; records whose write fails are dropped, not retained. -/
theorem csv_flush_amended :
    (∀ (ok : CsvRec → Bool) b bs (lf now : ℝ),
        (now - lf ≥ CSV_FLUSH_INTERVAL_S ∨ (b :: bs).length ≥ CSV_BUFFER_MAX) →
        flushStep ok (b :: bs) lf now = ([], now, (b :: bs).filter ok)) ∧
    (∀ b bs (lf now : ℝ),
        (now - lf ≥ CSV_FLUSH_INTERVAL_S ∨ (b :: bs).length ≥ CSV_BUFFER_MAX) →
        flushStep (fun _ => true) (b :: bs) lf now = ([], now, b :: bs)) ∧
    (∀ (ok : CsvRec → Bool) b bs (lf now : ℝ),
        ¬(now - lf ≥ CSV_FLUSH_INTERVAL_S ∨ (b :: bs).length ≥ CSV_BUFFER_MAX) →
        flushStep ok (b :: bs) lf now = (b :: bs, lf, [])) ∧
    (∀ (ok : CsvRec → Bool) (lf now : ℝ), flushStep ok [] lf now = ([], lf, [])) := by
  refine ⟨flushStep_trigger, ?_, flushStep_no_trigger, fun ok lf now => rfl⟩
  intro b bs lf now h
  rw [flushStep_trigger _ _ _ _ _ h]
  simp

/-- C3 amended witness: a due flush with all writes succeeding writes the
single buffered record and clears the buffer. -/
theorem csv_flush_amended_witness :
    flushStep (fun _ => true) [recA] 0 10 = ([], 10, [recA]) :=
  csv_flush_amended.2.1 recA [] 0 10 (Or.inl (by norm_num [CSV_FLUSH_INTERVAL_S]))

/- ===== C4: the map refresh path ===== -/

/-- C4: code bug.  The tick calls self dot moved enough at line 706, a
method that is defined nowhere, so on any accepted reading where follow map
mode is on and the time gate has elapsed the AttributeError aborts the rest
of the tick: no map update is ever emitted from the tick path and the alert
step of those ticks is skipped; the displacement gate described by the
claim is never evaluated at all. -/
theorem map_refresh_never_emits :
    (∀ (ok : CsvRec → Bool) s inp, (tickStep ok s inp).mapEmit = none) ∧
    (∀ (ok : CsvRec → Bool) s inp r, inp.linha.bind parseLinha = some r →
        s.follow_map = true → inp.now - s.last_map_update ≥ MAP_REFRESH_MIN_S →
        (tickStep ok s inp).alerts = none) := by
  constructor
  · intro ok s inp
    cases hp : inp.linha.bind parseLinha with
    | none => rw [tickStep_none _ _ _ hp]
    | some r =>
      rw [tickStep_some _ _ _ _ hp]
      cases hprev : s.last_point with
      | some p => rw [tickAccept_prev _ _ _ _ _ hprev, tickAcceptPrev_mapEmit]
      | none => rw [tickAccept_first _ _ _ _ hprev, tickAcceptFirst_mapEmit]
  · intro ok s inp r hp hf hg
    rw [tickStep_some _ _ _ _ hp]
    cases hprev : s.last_point with
    | some p =>
      rw [tickAccept_prev _ _ _ _ _ hprev]
      exact tickAcceptPrev_abort _ _ _ _ _ ⟨hf, hg⟩
    | none =>
      rw [tickAccept_first _ _ _ _ hprev]
      exact tickAcceptFirst_abort _ _ _ _ ⟨hf, hg⟩

/-- C4 witness: a concrete accepted reading in follow map mode with the
time gate elapsed leaves the tick with no alert evaluation at all. -/
theorem map_refresh_never_emits_witness :
    (tickStep (fun _ => true) c4State
      { linha := some ("LAT:1,LON:2".toList), now := 10 }).alerts = none := by
  have hp : (TickInput.mk (some ("LAT:1,LON:2".toList)) 10).linha.bind parseLinha =
      some (Reading.mk (natOfDigits ['1']) (natOfDigits ['2']) none) := rfl
  exact map_refresh_never_emits.2 (fun _ => true) c4State _ _ hp rfl
    (by show (10 : ℝ) - 0 ≥ MAP_REFRESH_MIN_S; norm_num [MAP_REFRESH_MIN_S])

/- ===== C5: last movement time ===== -/

theorem tickStep_lmt_cases (ok : CsvRec → Bool) (s : EngineState) (inp : TickInput) :
    (tickStep ok s inp).st.last_movement_time = s.last_movement_time ∨
    (tickStep ok s inp).st.last_movement_time = inp.now := by
  cases hp : inp.linha.bind parseLinha with
  | none =>
    rw [tickStep_none ok s inp hp]
    exact Or.inl rfl
  | some r =>
    rw [tickStep_some ok s inp r hp]
    cases hprev : s.last_point with
    | none =>
      rw [tickAccept_first ok s inp.now r hprev, tickAcceptFirst_lmt]
      exact Or.inr rfl
    | some p =>
      rw [tickAccept_prev ok s inp.now r p hprev, tickAcceptPrev_lmt]
      split
      · exact Or.inr rfl
      · exact Or.inl rfl

theorem tickStep_lmt_adv (ok : CsvRec → Bool) (s : EngineState) (inp : TickInput)
    (h : (tickStep ok s inp).st.last_movement_time ≠ s.last_movement_time) :
    (tickStep ok s inp).st.last_movement_time = inp.now ∧
    ∃ r, inp.linha.bind parseLinha = some r ∧
      (s.last_point = none ∨ ∃ p, s.last_point = some p ∧
        haversine_m p.1 p.2.1 (r.lat : ℝ) (r.lon : ℝ) > 1.5) := by
  cases hp : inp.linha.bind parseLinha with
  | none =>
    rw [tickStep_none ok s inp hp] at h
    exact absurd rfl h
  | some r =>
    rw [tickStep_some ok s inp r hp] at h ⊢
    cases hprev : s.last_point with
    | none =>
      rw [tickAccept_first ok s inp.now r hprev] at h ⊢
      exact ⟨tickAcceptFirst_lmt ok s inp.now r, r, rfl, Or.inl rfl⟩
    | some p =>
      rw [tickAccept_prev ok s inp.now r p hprev] at h ⊢
      rw [tickAcceptPrev_lmt] at h ⊢
      by_cases hd : haversine_m p.1 p.2.1 (r.lat : ℝ) (r.lon : ℝ) > 1.5
      · rw [if_pos hd] at h ⊢
        exact ⟨rfl, r, rfl, Or.inr ⟨p, rfl, hd⟩⟩
      · rw [if_neg hd] at h
        exact absurd rfl h

theorem runTicks_lmt_mono (ok : CsvRec → Bool) (inps : List TickInput) :
    ∀ s : EngineState,
      List.Chain' (fun a b => a ≤ b) (s.last_movement_time :: inps.map TickInput.now) →
      s.last_movement_time ≤ (runTicks ok s inps).last_movement_time := by
  induction inps with
  | nil =>
    intro s _
    rw [runTicks]
  | cons i is ih =>
    intro s h
    rw [List.map_cons, List.chain'_cons] at h
    obtain ⟨h1, h2⟩ := h
    have hstep : (tickStep ok s i).st.last_movement_time ≤ i.now ∧
        s.last_movement_time ≤ (tickStep ok s i).st.last_movement_time := by
      rcases tickStep_lmt_cases ok s i with hE | hE
      · rw [hE]
        exact ⟨h1, le_refl _⟩
      · rw [hE]
        exact ⟨le_refl _, h1⟩
    have hchain : List.Chain' (fun a b => a ≤ b)
        ((tickStep ok s i).st.last_movement_time :: is.map TickInput.now) := by
      cases hm : is.map TickInput.now with
      | nil => simp
      | cons x xs =>
        rw [hm] at h2
        rw [List.chain'_cons] at h2 ⊢
        exact ⟨le_trans hstep.1 h2.1, h2.2⟩
    have hrest := ih (tickStep ok s i).st hchain
    have hfin : runTicks ok s (i :: is) = runTicks ok (tickStep ok s i).st is := rfl
    rw [hfin]
    exact le_trans hstep.2 hrest

/-- C5: along any run of ticks whose clock values are nondecreasing and
start no earlier than the stored movement time, the last movement time
never decreases; and a single tick changes it only to the tick time, and
only on an accepted reading that is either the very first sample or lies
more than 1.5 meters of great circle distance from the previous sample. -/
theorem last_movement_time_monotone :
    (∀ (ok : CsvRec → Bool) (inps : List TickInput) (s : EngineState),
        List.Chain' (fun a b => a ≤ b)
          (s.last_movement_time :: inps.map TickInput.now) →
        s.last_movement_time ≤ (runTicks ok s inps).last_movement_time) ∧
    (∀ (ok : CsvRec → Bool) (s : EngineState) (inp : TickInput),
        (tickStep ok s inp).st.last_movement_time ≠ s.last_movement_time →
        (tickStep ok s inp).st.last_movement_time = inp.now ∧
        ∃ r, inp.linha.bind parseLinha = some r ∧
          (s.last_point = none ∨ ∃ p, s.last_point = some p ∧
            haversine_m p.1 p.2.1 (r.lat : ℝ) (r.lon : ℝ) > 1.5)) :=
  ⟨fun ok inps s h => runTicks_lmt_mono ok inps s h,
   fun ok s inp h => tickStep_lmt_adv ok s inp h⟩

/-- C5 witness: one tick at time 1 from the base state at movement time 0
does not decrease the movement time. -/
theorem last_movement_time_monotone_witness :
    baseState.last_movement_time ≤
      (runTicks (fun _ => true) baseState
        [{ linha := none, now := 1 }]).last_movement_time :=
  last_movement_time_monotone.1 (fun _ => true) [{ linha := none, now := 1 }]
    baseState (by
      refine List.chain'_pair.mpr ?_
      show (0 : ℝ) ≤ 1
      norm_num)

/- ===== C6: bounded buffers ===== -/

theorem pushBounded_drop {α : Type} (cap : ℕ) (x : α) (ys : List α) :
    pushBounded cap x (ys.drop (ys.length - cap)) =
      (ys ++ [x]).drop (ys.length + 1 - cap) := by
  unfold pushBounded
  by_cases hc : ys.length < cap
  · have h0 : ys.length - cap = 0 := by omega
    rw [h0, List.drop_zero]
    rw [if_pos (by rw [List.length_append, List.length_singleton]; omega)]
    have h1 : ys.length + 1 - cap = 0 := by omega
    rw [h1, List.drop_zero]
  · have hlen : (ys.drop (ys.length - cap)).length = cap := by
      rw [List.length_drop]
      omega
    rw [if_neg (by rw [List.length_append, hlen, List.length_singleton]; omega)]
    rw [List.length_append, hlen, List.length_singleton]
    have h2 : cap + 1 - cap = 1 := by omega
    rw [h2]
    rw [List.drop_append_eq_append_drop, List.drop_append_eq_append_drop,
      List.drop_drop, hlen]
    congr 1
    · congr 1
      omega
    · congr 1
      omega

theorem foldl_pushBounded {α : Type} (cap : ℕ) (xs : List α) :
    List.foldl (fun l p => pushBounded cap p l) [] xs =
      xs.drop (xs.length - cap) := by
  suffices h : ∀ ys : List α,
      List.foldl (fun l p => pushBounded cap p l) (ys.drop (ys.length - cap)) xs =
        (ys ++ xs).drop ((ys ++ xs).length - cap) by
    have h0 := h []
    simpa using h0
  induction xs with
  | nil =>
    intro ys
    simp
  | cons x xs ih =>
    intro ys
    rw [List.foldl_cons]
    rw [show pushBounded cap x (ys.drop (ys.length - cap)) =
        (ys ++ [x]).drop (ys.length + 1 - cap) from pushBounded_drop cap x ys]
    have hx := ih (ys ++ [x])
    rw [List.length_append, List.length_singleton] at hx
    rw [hx, List.append_assoc]
    simp

/-- C6: starting from an empty buffer, inserting any sequence of points
through the bounded append used by the tick leaves exactly the last
ROUTE_MAX_POINTS points in insertion order, so the route buffer never
exceeds its capacity of 500 and evicts oldest first; the speed history
satisfies the same property for its capacity of 600; and on every accepted
reading the tick extends the route exactly by this bounded append. -/
theorem buffers_bounded_last_n :
    (∀ xs : List (ℝ × ℝ),
        List.foldl (fun l p => pushBounded ROUTE_MAX_POINTS p l) [] xs =
          xs.drop (xs.length - ROUTE_MAX_POINTS)) ∧
    (∀ xs : List (ℝ × ℝ),
        (List.foldl (fun l p => pushBounded ROUTE_MAX_POINTS p l) [] xs).length ≤
          ROUTE_MAX_POINTS) ∧
    (∀ ys : List (ℝ × ℝ),
        List.foldl (fun l p => pushBounded SPEED_HISTORY_MAX p l) [] ys =
          ys.drop (ys.length - SPEED_HISTORY_MAX)) ∧
    (∀ ys : List (ℝ × ℝ),
        (List.foldl (fun l p => pushBounded SPEED_HISTORY_MAX p l) [] ys).length ≤
          SPEED_HISTORY_MAX) ∧
    (∀ (ok : CsvRec → Bool) s inp r, inp.linha.bind parseLinha = some r →
        (tickStep ok s inp).st.route =
          pushBounded ROUTE_MAX_POINTS ((r.lat : ℝ), (r.lon : ℝ)) s.route) := by
  refine ⟨fun xs => foldl_pushBounded _ xs, ?_, fun ys => foldl_pushBounded _ ys,
    ?_, ?_⟩
  · intro xs
    rw [foldl_pushBounded, List.length_drop]
    omega
  · intro ys
    rw [foldl_pushBounded, List.length_drop]
    omega
  · intro ok s inp r hp
    rw [tickStep_some ok s inp r hp]
    cases hprev : s.last_point with
    | some p => rw [tickAccept_prev ok s inp.now r p hprev, tickAcceptPrev_route]
    | none => rw [tickAccept_first ok s inp.now r hprev, tickAcceptFirst_route]

/-- C6 witness: a concrete accepted reading extends the route of the base
state by the bounded append at the parsed position. -/
theorem buffers_bounded_last_n_witness :
    (tickStep (fun _ => true) baseState
      { linha := some ("LAT:1,LON:2".toList), now := 1 }).st.route =
      pushBounded ROUTE_MAX_POINTS
        (((natOfDigits ['1'] : ℚ) : ℝ), ((natOfDigits ['2'] : ℚ) : ℝ))
        baseState.route :=
  buffers_bounded_last_n.2.2.2.2 (fun _ => true) baseState
    { linha := some ("LAT:1,LON:2".toList), now := 1 }
    (Reading.mk (natOfDigits ['1']) (natOfDigits ['2']) none) rfl

/- ===== C8: derived speed ===== -/

/-- C8: on an accepted reading with a previous sample, the speed recorded
in the speed history is the explicit speed of the reading when one was
carried, and otherwise the derived speed, haversine distance divided by the
elapsed time floored at the epsilon 1e-6 and multiplied by 3.6; feeding the
same position again gives zero distance and zero derived speed. -/
theorem derived_speed_correct :
    (∀ (ok : CsvRec → Bool) s inp r p, inp.linha.bind parseLinha = some r →
        s.last_point = some p → s.follow_map = false →
        (tickStep ok s inp).st.speed_history =
          pushBounded SPEED_HISTORY_MAX (inp.now - s.t0,
            match r.spd with
            | some v => (v : ℝ)
            | none => est_kmh p.1 p.2.1 (r.lat : ℝ) (r.lon : ℝ) p.2.2 inp.now)
            s.speed_history) ∧
    (∀ lat0 lon0 lat lon t0 now : ℝ,
        est_kmh lat0 lon0 lat lon t0 now =
          haversine_m lat0 lon0 lat lon / max (1 / 1000000) (now - t0) * 3.6) ∧
    (∀ lat0 lon0 t0 now : ℝ, haversine_m lat0 lon0 lat0 lon0 = 0 ∧
        est_kmh lat0 lon0 lat0 lon0 t0 now = 0) := by
  refine ⟨?_, fun lat0 lon0 lat lon t0 now => rfl, ?_⟩
  · intro ok s inp r p hp hprev hf
    rw [tickStep_some ok s inp r hp, tickAccept_prev ok s inp.now r p hprev]
    exact tickAcceptPrev_speed ok s inp.now r p (by simp [hf])
  · intro lat0 lon0 t0 now
    refine ⟨haversine_self lat0 lon0, ?_⟩
    unfold est_kmh
    rw [haversine_self]
    ring

/-- C8 witness: a concrete reading with an explicit speed of 5 appends
exactly that speed to the history, taking precedence over the derived
value. -/
theorem derived_speed_correct_witness :
    (tickStep (fun _ => true) c8State
      { linha := some ("LAT:0,LON:0,SPD:5".toList), now := 2 }).st.speed_history =
      pushBounded SPEED_HISTORY_MAX ((2 : ℝ) - c8State.t0,
        ((natOfDigits ['5'] : ℚ) : ℝ)) c8State.speed_history :=
  derived_speed_correct.1 (fun _ => true) c8State
    { linha := some ("LAT:0,LON:0,SPD:5".toList), now := 2 }
    (Reading.mk (natOfDigits ['0']) (natOfDigits ['0']) (some (natOfDigits ['5'])))
    (0, 0, 0) rfl rfl rfl
